import Mathlib

/-!
Verification development for the quantfinance repository.

The development shallowly embeds the three source modules:
  * `utilities/utils.py` (date coercion: `create_datetime`),
  * `core/base.py` (`DataFrameCollection`, `SecurityLevelData`),
  * `quantfinance/utilities/pandas_utils.py` (`apply_columnwise`,
    `dtype_specific_binary`),
and proves the frozen claims about them.

Modelling conventions:
  * Python `datetime` values appearing as snapshot keys are always produced by
    `create_datetime`, which yields midnight values, so the time-of-day
    components (always zero here) are omitted from the `DateTime` model.
  * Python exceptions are modelled by `Except PyError`.
  * Python `dict`s are modelled as association lists with unique keys,
    updated in place by `dictInsert` (as `d[k] = v` does).
  * Mutable attributes are modelled by explicit state passing: each method
    returns the updated object value.
-/

/-- A timezone-naive calendar date, the canonical snapshot-key type
(`datetime.datetime` truncated to midnight; `create_datetime` only ever
produces midnight values, so hour/minute/second are omitted). -/
@[ext]
structure DateTime where
  year : Nat
  month : Nat
  day : Nat
deriving DecidableEq, Repr

instance : Inhabited DateTime := ⟨⟨1970, 1, 1⟩⟩

/-- Boolean comparison mirroring `datetime.__le__` (lexicographic on
(year, month, day)). -/
def DateTime.leB (a b : DateTime) : Bool :=
  decide (a.year < b.year) ||
    (decide (a.year = b.year) &&
      (decide (a.month < b.month) ||
        (decide (a.month = b.month) && decide (a.day ≤ b.day))))

instance : LE DateTime := ⟨fun a b => DateTime.leB a b = true⟩
instance : LT DateTime := ⟨fun a b => a ≤ b ∧ ¬ b ≤ a⟩

instance DateTime.decLE : @DecidableRel DateTime (· ≤ ·) :=
  fun _ _ => inferInstanceAs (Decidable (_ = true))

theorem DateTime.le_iff (a b : DateTime) :
    a ≤ b ↔ (a.year < b.year ∨ (a.year = b.year ∧
      (a.month < b.month ∨ (a.month = b.month ∧ a.day ≤ b.day)))) := by
  show DateTime.leB a b = true ↔ _
  simp [DateTime.leB]

instance : LinearOrder DateTime where
  le := (· ≤ ·)
  lt := (· < ·)
  le_refl a := by rw [DateTime.le_iff]; omega
  le_trans a b c := by
    rw [DateTime.le_iff, DateTime.le_iff, DateTime.le_iff]; omega
  le_antisymm a b := by
    rw [DateTime.le_iff, DateTime.le_iff]
    intro h1 h2
    have hy : a.year = b.year := by omega
    have hm : a.month = b.month := by omega
    have hd : a.day = b.day := by omega
    ext <;> assumption
  le_total a b := by rw [DateTime.le_iff, DateTime.le_iff]; omega
  lt_iff_le_not_le _ _ := Iff.rfl
  decidableLE := DateTime.decLE

/-- Python exception values surfaced by the embedded code. -/
inductive PyError where
  | valueError (msg : String)
  | keyError (msg : String)
  | indexError (msg : String)
deriving DecidableEq, Repr

deriving instance DecidableEq for Except

/-! ## Date coercion (`utils.create_datetime`)

`create_datetime(date, input_fmt=None, from_tstamp=False)` is embedded at its
default arguments, which is how every call site in `core/base.py` invokes it
(the `input_fmt` branch is a passthrough to `strptime` with a caller-chosen
format, and the `from_tstamp` branch converts POSIX seconds through the host
local timezone — host state no claim exercises).  The four inferred formats
`%Y-%m-%d`, `%m/%d/%Y`, `%Y%m%d` and `%Y%m` are embedded with `strptime`'s
exact matching discipline: `%Y` is exactly four digits, `%m`/`%d` are one or
two digits within range (two digits in the separator-free formats, since any
leftover characters make `strptime` fail), and the resulting components must
form a real calendar date. -/

/-- Split a character list at every occurrence of `sep`
(`str.split`-style; used to mirror the separator structure of the
`%Y-%m-%d` and `%m/%d/%Y` patterns). -/
def splitOnSep (sep : Char) : List Char → List (List Char)
  | [] => [[]]
  | c :: cs =>
    let r := splitOnSep sep cs
    if c = sep then [] :: r
    else
      match r with
      | [] => [[c]]
      | h :: t => (c :: h) :: t

/-- Numeric value of a digit string. -/
def digitsVal (cs : List Char) : Nat :=
  cs.foldl (fun n c => n * 10 + (c.toNat - 48)) 0

/-- `some n` when `cs` is a nonempty string of ASCII digits. -/
def decDigits? (cs : List Char) : Option Nat :=
  if cs ≠ [] ∧ cs.all Char.isDigit then some (digitsVal cs) else none

/-- `%Y`: exactly four digits. -/
def parseYear4 (cs : List Char) : Option Nat :=
  match decDigits? cs with
  | some y => if cs.length = 4 then some y else none
  | none => none

/-- `%m` in a separated format: one or two digits, value 1–12. -/
def parseMonth (cs : List Char) : Option Nat :=
  match decDigits? cs with
  | some m =>
      if (cs.length = 1 ∨ cs.length = 2) ∧ 1 ≤ m ∧ m ≤ 12 then some m else none
  | none => none

/-- `%d` in a separated format: one or two digits, value 1–31. -/
def parseDay (cs : List Char) : Option Nat :=
  match decDigits? cs with
  | some d =>
      if (cs.length = 1 ∨ cs.length = 2) ∧ 1 ≤ d ∧ d ≤ 31 then some d else none
  | none => none

/-- Gregorian leap-year test (as `calendar.isleap` / `datetime`). -/
def isLeap (y : Nat) : Bool :=
  decide (y % 4 = 0) && (decide (y % 100 ≠ 0) || decide (y % 400 = 0))

/-- Number of days in month `m` of year `y`. -/
def daysInMonth (y m : Nat) : Nat :=
  if m = 2 then (if isLeap y then 29 else 28)
  else if m = 4 ∨ m = 6 ∨ m = 9 ∨ m = 11 then 30
  else 31

/-- The `datetime(y, m, d)` constructor: validates ranges
(`MINYEAR ≤ y ≤ MAXYEAR`, `1 ≤ m ≤ 12`, `1 ≤ d ≤ days_in_month`),
raising `ValueError` otherwise. -/
def mkDate (y m d : Nat) : Except PyError DateTime :=
  if 1 ≤ y ∧ y ≤ 9999 ∧ 1 ≤ m ∧ m ≤ 12 ∧ 1 ≤ d ∧ d ≤ daysInMonth y m
  then .ok ⟨y, m, d⟩
  else .error (.valueError "date value out of range")

/-- `datetime.strptime(s, '%Y-%m-%d')`. -/
def parse_Y_m_d (cs : List Char) : Except PyError DateTime :=
  match splitOnSep '-' cs with
  | [ys, ms, ds] =>
    match parseYear4 ys, parseMonth ms, parseDay ds with
    | some y, some m, some d => mkDate y m d
    | _, _, _ => .error (.valueError "time data does not match format %Y-%m-%d")
  | _ => .error (.valueError "time data does not match format %Y-%m-%d")

/-- `datetime.strptime(s, '%m/%d/%Y')`. -/
def parse_m_d_Y (cs : List Char) : Except PyError DateTime :=
  match splitOnSep '/' cs with
  | [ms, ds, ys] =>
    match parseYear4 ys, parseMonth ms, parseDay ds with
    | some y, some m, some d => mkDate y m d
    | _, _, _ => .error (.valueError "time data does not match format %m/%d/%Y")
  | _ => .error (.valueError "time data does not match format %m/%d/%Y")

/-- `datetime.strptime(s, '%Y%m%d')` on an 8-character string: four-digit
year, then two-digit month and day (a one-digit `%m`/`%d` match would leave
unconverted characters, which `strptime` rejects). -/
def parse_Ymd (cs : List Char) : Except PyError DateTime :=
  match decDigits? (cs.take 4), decDigits? ((cs.drop 4).take 2),
        decDigits? (cs.drop 6) with
  | some y, some m, some d =>
    if (cs.take 4).length = 4 ∧ (cs.drop 6).length = 2 ∧
        1 ≤ m ∧ m ≤ 12 ∧ 1 ≤ d ∧ d ≤ 31
    then mkDate y m d
    else .error (.valueError "time data does not match format %Y%m%d")
  | _, _, _ => .error (.valueError "time data does not match format %Y%m%d")

/-- `datetime.strptime(s, '%Y%m')` on a 6-character string (day defaults
to 1). -/
def parse_Ym (cs : List Char) : Except PyError DateTime :=
  match decDigits? (cs.take 4), decDigits? (cs.drop 4) with
  | some y, some m =>
    if (cs.take 4).length = 4 ∧ 1 ≤ m ∧ m ≤ 12
    then mkDate y m 1
    else .error (.valueError "time data does not match format %Y%m")
  | _, _ => .error (.valueError "time data does not match format %Y%m")

/-- Input to `create_datetime`: an already-typed `datetime` (returned
unchanged) or a string (any other input is first coerced by `str(...)`,
i.e. arrives here as a string). -/
inductive DateInput where
  | dt (d : DateTime)
  | str (s : String)
deriving DecidableEq, Repr

/-- `utils.create_datetime` at its default keyword arguments: an
already-typed `datetime` passes through; a string's format is inferred by
structural inspection — a `-` anywhere selects `%Y-%m-%d`, else a `/`
selects `%m/%d/%Y`, else length 8 selects `%Y%m%d`, else length 6 selects
`%Y%m`, else `ValueError`.  Parse failures propagate (`except ValueError:
raise`). The `lru_cache` memoization is semantically invisible for a pure
function and is not modelled. -/
def create_datetime (date : DateInput) : Except PyError DateTime :=
  match date with
  | .dt d => .ok d
  | .str s =>
    let cs := s.data
    if cs.contains '-' then parse_Y_m_d cs
    else if cs.contains '/' then parse_m_d_Y cs
    else if cs.length = 8 then parse_Ymd cs
    else if cs.length = 6 then parse_Ym cs
    else .error (.valueError "Cannot convert date_str - format not recognized!")


/-! ## `DataFrameCollection` (core/base.py)

The collection is generic in the key type `κ` and the snapshot type `φ`:
`core/base.py` duck-types both (`self.data[dated_df.date] = ...` uses whatever
value sits in the `date` field as the `dict` key).  The intended
instantiation keys by `DateTime`; claim C3's counterexample instantiates `κ`
with `DateInput` to expose that `add_data` performs no date coercion. -/

/-- The `DatedDataFrame` namedtuple `(date, data_frame, DATA_ID)`. -/
structure DatedDataFrame (κ φ : Type) where
  date : κ
  data_frame : φ
  DATA_ID : String
deriving DecidableEq, Repr

/-- `d[k] = v` on a Python `dict` modelled as an association list with
unique keys: replace the value at an existing key in place, else append. -/
def dictInsert [DecidableEq κ] : List (κ × φ) → κ → φ → List (κ × φ)
  | [], k, v => [(k, v)]
  | p :: t, k, v => if p.1 = k then (p.1, v) :: t else p :: dictInsert t k v

/-- `d.get(k)` / `d[k]` lookup on a Python `dict`. -/
def dictGet [DecidableEq κ] : List (κ × φ) → κ → Option φ
  | [], _ => none
  | p :: t, k => if p.1 = k then some p.2 else dictGet t k

/-- State of a `DataFrameCollection`: identifying tag, the date-keyed
mapping `data`, and the derived key list `data_dates`. -/
structure DataFrameCollection (κ φ : Type) where
  DATA_ID : String
  data : List (κ × φ)
  data_dates : List κ
deriving DecidableEq, Repr

/-- `DataFrameCollection.add_data`: stores `data[dated_df.date] =
dated_df.data_frame` (the date field is used as the key exactly as given —
there is no call to `create_datetime` here), then rebuilds `data_dates` as
the sorted key list (`list(self.data.keys())` followed by `.sort()`). -/
def DataFrameCollection.add_data [LinearOrder κ]
    (c : DataFrameCollection κ φ) (ddf : DatedDataFrame κ φ) :
    DataFrameCollection κ φ :=
  let data := dictInsert c.data ddf.date ddf.data_frame
  { DATA_ID := c.DATA_ID
    data := data
    data_dates := List.insertionSort (· ≤ ·) (data.map Prod.fst) }

/-- `DataFrameCollection.__init__`: record `DATA_ID`, start from an empty
mapping and insert the initial snapshot via `add_data`. -/
def DataFrameCollection.init [LinearOrder κ]
    (ddf : DatedDataFrame κ φ) : DataFrameCollection κ φ :=
  DataFrameCollection.add_data { DATA_ID := ddf.DATA_ID, data := [], data_dates := [] } ddf

/-- `bisect.bisect_right` specialised to the sorted lists it is applied to
in `get_last_data_date`: on a list sorted ascending, the binary search
returns the same index as this linear scan (the count of leading elements
not greater than `x`). -/
def bisect_right [LinearOrder κ] : List κ → κ → Nat
  | [], _ => 0
  | a :: t, x => if x < a then 0 else bisect_right t x + 1

/-- `DataFrameCollection.get_last_data_date`: canonicalize the query via
`create_datetime`; try the exact `dict` lookup; on `KeyError` fall back to
`bisect_right` over the sorted `data_dates` and return the entry just below
the insertion point, raising `ValueError('No Earlier Data Available!')`
when the insertion point is 0 (`if i and i > 0`). -/
def DataFrameCollection.get_last_data_date
    (c : DataFrameCollection DateTime φ) (date : DateInput) :
    Except PyError DateTime :=
  match create_datetime date with
  | .error e => .error e
  | .ok d =>
    match dictGet c.data d with
    | some _ => .ok d
    | none =>
      let i := bisect_right c.data_dates d
      if i ≠ 0 then .ok (c.data_dates.getD (i - 1) default)
      else .error (.valueError "No Earlier Data Available!")

/-- `DataFrameCollection.get_latest_data` with an explicit query date (the
`date=None` default substitutes the host's current date — host state no
claim exercises): resolve the date, then return `self.data[date]`. -/
def DataFrameCollection.get_latest_data
    (c : DataFrameCollection DateTime φ) (date : DateInput) :
    Except PyError φ :=
  match c.get_last_data_date date with
  | .error e => .error e
  | .ok d =>
    match dictGet c.data d with
    | some f => .ok f
    | none => .error (.keyError "resolved date not in data")

/-- Well-formedness of a collection state: the derived key list is strictly
sorted and is a permutation of the mapping's keys.  (Established by
construction and preserved by `add_data` — claim C4.) -/
def DataFrameCollection.WF [LinearOrder κ] (c : DataFrameCollection κ φ) : Prop :=
  c.data_dates.Sorted (· < ·) ∧ c.data_dates.Perm (c.data.map Prod.fst)

/-! ## `SecurityLevelData` (core/base.py)

Snapshots are now concrete labeled tables.  A `DataFrame α` has a row-index
name, column labels, and rows of `(index key, cell values)` with the cell
list aligned to `cols`.  One value type `α` covers index keys, cells and
default values (Python is untyped here); the concrete scenarios instantiate
`α` with `Val` below. -/

/-- A concrete cell/key value for the concrete scenarios (string security
identifiers, integer prices/defaults). -/
inductive Val where
  | str (s : String)
  | int (n : Int)
deriving DecidableEq, Repr, Inhabited

/-- A pandas `DataFrame` at the granularity the embedded code uses: the
row-index label (`df.index.name`, `none` when unnamed), the column labels,
and the rows as `(index value, cells)` pairs. -/
structure DataFrame (α : Type) where
  index_name : Option String
  cols : List String
  rows : List (α × List α)
deriving DecidableEq, Repr

/-- `df.set_index(label, inplace=True)` (only called when `label` occurs in
`df.columns`): the named column is removed from the columns and its values
become the row index, discarding the previous index; all other columns and
cells are untouched. -/
def DataFrame.set_index [Inhabited α] (df : DataFrame α) (label : String) :
    DataFrame α :=
  let j := (df.cols.findIdx? (fun c => c == label)).getD 0
  { index_name := some label
    cols := df.cols.eraseIdx j
    rows := df.rows.map (fun r => (r.2.getD j default, r.2.eraseIdx j)) }

/-- `df.loc[key, field]`: `some` cell value when both the row key and the
column label resolve, `none` for the `KeyError` cases (missing row or
missing column).  Row keys are assumed unique (pandas would return a
sub-series for duplicate keys; the stores here never create any). -/
def DataFrame.loc [DecidableEq α] (df : DataFrame α) (key : α) (field : String) :
    Option α :=
  match df.cols.findIdx? (fun c => c == field) with
  | none => none
  | some j =>
    match df.rows.find? (fun r => decide (r.1 = key)) with
    | none => none
    | some r => r.2[j]?

/-- The `DataFrameField` namedtuple `(NAME, UNIT, DEF_VAL)`; unset metadata
is `None`. -/
structure DataFrameField (α : Type) where
  NAME : String
  UNIT : Option String
  DEF_VAL : Option α
deriving DecidableEq, Repr

/-- The `DataFrameSchema` namedtuple `(INDEX_LABEL, FIELDS)`; `FIELDS` is an
`OrderedDict` of column name to field descriptor, modelled as an ordered
association list. -/
structure DataFrameSchema (α : Type) where
  INDEX_LABEL : String
  FIELDS : List (String × DataFrameField α)
deriving DecidableEq, Repr

/-- `SecurityLevelData`: a `DataFrameCollection` keyed by `DateTime` plus
the schema attached at construction. -/
structure SecurityLevelData (α : Type) extends
    DataFrameCollection DateTime (DataFrame α) where
  schema : DataFrameSchema α
deriving DecidableEq, Repr

/-- The `unit` argument: Python accepts a single `str` or a `dict`; any
other non-`None` value (including `None` itself when `def_val` is supplied)
fails the `type(unit) not in (str, dict)` check. -/
inductive UnitArg where
  | str (u : String)
  | dict (m : List (String × String))
deriving DecidableEq, Repr

/-- The `def_val` argument: a single numeric scalar (`int`/`float`) or a
`dict`. -/
inductive DefValArg (α : Type) where
  | scalar (v : α)
  | dict (m : List (String × α))
deriving DecidableEq, Repr

/-- Lines 159–176 of `core/base.py`: normalize the snapshot's row index to
`SEC_ID`.  For any pandas `DataFrame`, `df.index.names` exists and
`df.index.names[0] == df.index.name` for a single-level index, so the
`AttributeError`/`KeyError` handler at lines 163–171 never fires and
`primary_ind_label` ends up equal to `df.index.name` in every case; the
line-172 comparison then promotes via `set_index(..., inplace=True)`
whenever that label differs from `'SEC_ID'` (in particular when it is
`None`), raising `ValueError` when no `SEC_ID` column exists. -/
def resolveIndex [Inhabited α] (df : DataFrame α) : Except PyError (DataFrame α) :=
  if df.index_name ≠ some "SEC_ID" then
    if "SEC_ID" ∈ df.cols then .ok (df.set_index "SEC_ID")
    else .error (.valueError "DataFrame must include 'SEC_ID' column")
  else .ok df

/-- Field-descriptor construction: one `DataFrameField` per column of the
initial snapshot, with `units.get(f)` / `def_vals.get(f)`. -/
def buildFields (fl : List String) (units : List (String × String))
    (def_vals : List (String × α)) : List (String × DataFrameField α) :=
  fl.map (fun f => (f, ⟨f, dictGet units f, dictGet def_vals f⟩))

/-- `SecurityLevelData.__init__` (the unused `valid`/`required` parameters
are omitted).  Mirrors the source order: read the column list, run the
metadata validation block when *either* of `unit`/`def_val` is non-`None`
(type-checking both — `unit` first), build the schema, normalize the row
index (mutating the caller's frame in place), then delegate to
`DataFrameCollection.__init__`.  Because `set_index` is called with
`inplace=True`, the caller's frame object itself is re-indexed: the second
component of the result is the frame value the caller's reference sees
afterwards (identical to the one stored in the collection). -/
def SecurityLevelData.init [DecidableEq α] [Inhabited α]
    (ddf : DatedDataFrame DateTime (DataFrame α))
    (unit : Option UnitArg) (def_val : Option (DefValArg α)) :
    Except PyError (SecurityLevelData α × DataFrame α) :=
  let fl := ddf.data_frame.cols
  let meta : Except PyError (List (String × String) × List (String × α)) :=
    if unit.isSome || def_val.isSome then
      match unit with
      | none => .error (.valueError "Unit Type must be a single STR or dict!")
      | some ua =>
        let units := match ua with
          | .str u => fl.map (fun f => (f, u))
          | .dict m => m
        match def_val with
        | none =>
          .error (.valueError "Default Value must be a single INT, FLOAT or dict!")
        | some dv =>
          let dvs := match dv with
            | .scalar v => fl.map (fun f => (f, v))
            | .dict m => m
          .ok (units, dvs)
    else .ok ([], [])
  match meta with
  | .error e => .error e
  | .ok (units, dvs) =>
    let schema : DataFrameSchema α := ⟨"SEC_ID", buildFields fl units dvs⟩
    match resolveIndex ddf.data_frame with
    | .error e => .error e
    | .ok df2 =>
      .ok (⟨DataFrameCollection.init ⟨ddf.date, df2, ddf.DATA_ID⟩, schema⟩, df2)

/-- `SecurityLevelData.add_data` is inherited from `DataFrameCollection`
unchanged. -/
def SecurityLevelData.add_data (s : SecurityLevelData α)
    (ddf : DatedDataFrame DateTime (DataFrame α)) : SecurityLevelData α :=
  ⟨s.toDataFrameCollection.add_data ddf, s.schema⟩

/-- `SecurityLevelData.get_field_names`. -/
def SecurityLevelData.get_field_names (s : SecurityLevelData α) : List String :=
  s.schema.FIELDS.map Prod.fst

/-- `SecurityLevelData.get_value` with an explicit query date (the
`date=None` default substitutes the host's current date): fetch the
snapshot as of `date`, fail with
`ValueError('<field> Field not found in data schema!')` for an undeclared
field, then try `df.loc[sec_id, field]`, falling back on `KeyError` to the
field's `DEF_VAL` (which can itself be `None`, modelled as `none`). -/
def SecurityLevelData.get_value [DecidableEq α] (s : SecurityLevelData α)
    (sec_id : α) (field : String) (date : DateInput) :
    Except PyError (Option α) :=
  match s.toDataFrameCollection.get_latest_data date with
  | .error e => .error e
  | .ok df =>
    if field ∈ s.get_field_names then
      match df.loc sec_id field with
      | some v => .ok (some v)
      | none =>
        match dictGet s.schema.FIELDS field with
        | some fd => .ok fd.DEF_VAL
        | none => .error (.keyError field)
    else .error (.valueError (field ++ " Field not found in data schema!"))

/-! ## `pandas_utils.apply_columnwise` (quantfinance/utilities/pandas_utils.py)

Frames here are column-major (`PFrame`): a shared row-label list and a list
of `(column label, values)` pairs, values aligned positionally with the
index.  Column labels are strings or integers (`pd.DataFrame([...]).T`
in the broadcast branch produces integer column labels `0..n-1`).

`binary_func` must take two equal-length columns and return one column; the
wrapper passes either label-aligned pandas `Series` (when `ignore_index` is
false) or the raw `.values` arrays; the embedding passes the corresponding
value sequences in both cases. -/

/-- A pandas column label: string, or the integer labels produced by the
broadcast construction. -/
inductive ColLabel where
  | str (s : String)
  | nat (n : Nat)
deriving DecidableEq, Repr

/-- A pandas `DataFrame` in column-major form. -/
structure PFrame (α : Type) where
  index : List String
  cols : List (ColLabel × List α)
deriving DecidableEq, Repr

/-- `pd.DataFrame([fr.iloc[:, 0]] * n).reset_index(drop=True).T`: `n` copies
of the single column of `fr`, relabelled `0..n-1`, keeping `fr`'s row
index. -/
def broadcastFrame (fr : PFrame α) (n : Nat) : PFrame α :=
  let v := (fr.cols.headD (ColLabel.nat 0, [])).2
  { index := fr.index, cols := (List.range n).map (fun j => (ColLabel.nat j, v)) }

/-- `fr[labels]`: column selection by label list, in the order of `labels`. -/
def selectCols (fr : PFrame α) (labels : List ColLabel) : PFrame α :=
  { index := fr.index
    cols := labels.filterMap
      (fun c => (fr.cols.find? (fun p => p.1 == c)).map (fun p => (c, p.2))) }

/-- `left.loc[labels, ·]` row selection: pick, for each requested label, the
value at the first matching position of `lindex`; a label absent from
`lindex` raises `KeyError`. -/
def alignVals [DecidableEq ℓ] (lindex : List ℓ) (lvals : List α)
    (labels : List ℓ) : Except PyError (List α) :=
  match labels with
  | [] => .ok []
  | lbl :: rest =>
    match lindex.findIdx? (fun x => decide (x = lbl)) with
    | none => .error (.keyError "label not found")
    | some i =>
      match lvals[i]? with
      | none => .error (.keyError "ragged frame")
      | some v =>
        match alignVals lindex lvals rest with
        | .error e => .error e
        | .ok vs => .ok (v :: vs)

/-- `left[c]` — column values by label (`KeyError` when absent). -/
def colByLabel (fr : PFrame α) (c : ColLabel) : Except PyError (List α) :=
  match fr.cols.find? (fun p => p.1 == c) with
  | some p => .ok p.2
  | none => .error (.keyError "column label not found")

/-- `left.columns[right.columns.get_loc(c)]` — the left column at the
positional index of label `c` in `right` (`IndexError` when `left` has
fewer columns). -/
def colByPos (left right : PFrame α) (c : ColLabel) : Except PyError (List α) :=
  match right.cols.findIdx? (fun p => p.1 == c) with
  | none => .error (.keyError "column label not in right")
  | some j =>
    match left.cols[j]? with
    | some p => .ok p.2
    | none => .error (.indexError "column position out of range")

/-- The decorated unary function from `_make_unary_func`, applied to one
`right` column `cp`: select the matching `left` column by label or position,
align by row labels unless `ignore_index`, and apply `binary_func`. -/
def applyCol (left right : PFrame α) (f : List α → List α → List β)
    (ignore_index ignore_columns : Bool) (cp : ColLabel × List α) :
    Except PyError (ColLabel × List β) :=
  match ignore_index, ignore_columns with
  | false, false =>
    match colByLabel left cp.1 with
    | .error e => .error e
    | .ok lv =>
      match alignVals left.index lv right.index with
      | .error e => .error e
      | .ok a => .ok (cp.1, f a cp.2)
  | false, true =>
    match colByPos left right cp.1 with
    | .error e => .error e
    | .ok lv =>
      match alignVals left.index lv right.index with
      | .error e => .error e
      | .ok a => .ok (cp.1, f a cp.2)
  | true, false =>
    match colByLabel left cp.1 with
    | .error e => .error e
    | .ok lv => .ok (cp.1, f lv cp.2)
  | true, true =>
    match colByPos left right cp.1 with
    | .error e => .error e
    | .ok lv => .ok (cp.1, f lv cp.2)

/-- `right.apply(_final_unary_func)`: one output column per `right` column,
rows labelled by `right`'s index. -/
def applyFrame (left right : PFrame α) (f : List α → List α → List β)
    (ignore_index ignore_columns : Bool) : Except PyError (PFrame β) :=
  match right.cols.mapM (applyCol left right f ignore_index ignore_columns) with
  | .error e => .error e
  | .ok cols => .ok { index := right.index, cols := cols }

/-- Lines 103–125 of `pandas_utils.py`: column-count reconciliation
(broadcast a single column when `ignore_columns`, else restrict both sides
to the shared labels), then apply. -/
def reconcileCols (left right : PFrame α) (f : List α → List α → List β)
    (ignore_index ignore_columns : Bool) : Except PyError (PFrame β) :=
  if left.cols.length ≠ right.cols.length then
    if ignore_columns then
      if left.cols.length = 1 then
        applyFrame (broadcastFrame left right.cols.length) right f
          ignore_index ignore_columns
      else if right.cols.length = 1 then
        applyFrame left (broadcastFrame right left.cols.length) f
          ignore_index ignore_columns
      else
        .error (.valueError
          "Cannot apply function! left or right must have a single column when left, right have different number of columns and ignoring column labels")
    else
      let common := (left.cols.map Prod.fst).filter
        (fun c => (right.cols.map Prod.fst).contains c)
      if common.length = 0 then
        .error (.valueError
          "Cannot apply function! left, right do not share any column labels in common")
      else applyFrame (selectCols left common) (selectCols right common) f
        ignore_index ignore_columns
  else applyFrame left right f ignore_index ignore_columns

/-- `apply_columnwise(left, right, binary_func, ignore_index,
ignore_columns)`.  (A `pd.Series` input arrives here already promoted to a
one-column frame, and `binary_func` is a typed function, so the
`isinstance`/`callable` guards are vacuous.)  Row-count validation first:
differing row counts fail outright when ignoring the index, and fail when
the indexes share no label otherwise; then column reconciliation and the
columnwise application. -/
def apply_columnwise (left right : PFrame α) (f : List α → List α → List β)
    (ignore_index ignore_columns : Bool) : Except PyError (PFrame β) :=
  if left.index.length ≠ right.index.length then
    if ignore_index then
      .error (.valueError
        "left, right must have same number of rows when ignoring index labels")
    else if (left.index.filter (fun l => right.index.contains l)).length = 0 then
      .error (.valueError
        "Cannot apply function! left, right do not share any index labels in common!")
    else reconcileCols left right f ignore_index ignore_columns
  else reconcileCols left right f ignore_index ignore_columns

/-! ## `pandas_utils.dtype_specific_binary`

The pandas dtype-introspection helpers (`is_numeric_dtype` and friends) are
external collaborators, modelled faithfully on an abstract dtype universe —
including their overlaps: pandas' `is_numeric_dtype` is true for bool
dtypes (`np.bool_` counts as numeric), and the repository-era
`is_string_dtype` is true for every object-kind dtype, which includes
`CategoricalDtype` (kind `'O'`); only period/interval dtypes are excluded
from it.  Because of these overlaps the earlier guards of
`dtype_specific_binary` capture inputs the later guards name: bool pairs
dispatch to `numerics` and categorical pairs dispatch to `strings`.
`dtype_specific_binary` itself is translated guard for guard in source
order. -/

/-- A pandas dtype at the granularity the dispatcher distinguishes.
`other` stands for dtypes recognized by none of the predicates below
(e.g. a period dtype, which `is_string_dtype` explicitly excludes). -/
inductive Dtype where
  | numeric
  | datetimeLike
  | timedeltaLike
  | boolean
  | stringLike
  | categorical
  | interval
  | other
deriving DecidableEq, Repr

/-- `pandas.api.types.is_numeric_dtype`: true for numeric dtypes *and* for
bool dtypes (pandas classifies `np.bool_` as numeric). -/
def is_numeric_dtype : Dtype → Bool
  | .numeric => true
  | .boolean => true
  | _ => false

def is_datetime64_any_dtype : Dtype → Bool
  | .datetimeLike => true
  | _ => false

def is_timedelta64_dtype : Dtype → Bool
  | .timedeltaLike => true
  | _ => false

def is_timedelta64_ns_dtype : Dtype → Bool
  | .timedeltaLike => true
  | _ => false

def is_bool_dtype : Dtype → Bool
  | .boolean => true
  | _ => false

/-- Repository-era `is_string_dtype`: true for every object-kind dtype
(`dtype.kind in ('O', 'S', 'U')` minus the period/interval exclusions),
hence true for plain string/object columns *and* for `CategoricalDtype`. -/
def is_string_dtype : Dtype → Bool
  | .stringLike => true
  | .categorical => true
  | _ => false

def is_categorical_dtype : Dtype → Bool
  | .categorical => true
  | _ => false

def is_interval_dtype : Dtype → Bool
  | .interval => true
  | _ => false

/-- A pandas `Series`: optional name, dtype, row labels and values.  Cell
type `Option β` models values-with-missing: `none` is `np.nan`. -/
structure Series (α : Type) where
  name : Option String
  dtype : Dtype
  index : List String
  values : List α
deriving DecidableEq, Repr

/-- `pd.Series(np.nan, index=right.index)`: an unnamed float64 series of
NaNs on `right`'s row labels. -/
def nanSeries (idx : List String) : Series (Option β) :=
  { name := none, dtype := .numeric, index := idx,
    values := idx.map (fun _ => none) }

/-- `dtype_specific_binary(left, right, numerics, datetimes, bools,
strings, categoricals, intervals, errors='ignore')`: dispatch on the dtypes
of both inputs, in source order; on mismatch raise
`ValueError` when `errors == 'raise'`, else issue a warning (the `Bool`
component of the result) and return NaNs aligned to `right`'s labels. -/
def dtype_specific_binary (left right : Series α)
    (numerics datetimes bools strings categoricals intervals :
      Series α → Series α → Series (Option β))
    (errors : String) : Except PyError (Bool × Series (Option β)) :=
  let ld := left.dtype
  let rd := right.dtype
  if is_numeric_dtype ld && is_numeric_dtype rd then
    .ok (false, numerics left right)
  else if (is_datetime64_any_dtype ld || is_timedelta64_dtype ld
        || is_timedelta64_ns_dtype ld)
      && (is_datetime64_any_dtype rd || is_timedelta64_dtype rd
        || is_timedelta64_ns_dtype rd) then
    .ok (false, datetimes left right)
  else if is_bool_dtype ld && is_bool_dtype rd then
    .ok (false, bools left right)
  else if is_string_dtype ld && is_string_dtype rd then
    .ok (false, strings left right)
  else if is_categorical_dtype ld && is_categorical_dtype rd then
    .ok (false, categoricals left right)
  else if is_interval_dtype ld && is_interval_dtype rd then
    .ok (false, intervals left right)
  else if errors == "raise" then
    .error (.valueError "left and right do not have matching supported dtypes")
  else
    .ok (true, nanSeries right.index)

/-- The "recognized value category" of a dtype, written from the spec's
data model (section 4.5): numeric, datetime-or-duration, boolean,
string-like, categorical, interval; `none` when no category is
recognized.  Used to state claim C8 in the spec's vocabulary. -/
inductive DtypeCategory where
  | numericC
  | datetimeC
  | boolC
  | stringC
  | categoricalC
  | intervalC
deriving DecidableEq, Repr

/-- Modelled from the spec: section 4.5's category classification
("numeric, datetime-or-duration, boolean, string-like, categorical,
interval"); datetimes and timedeltas share one category. -/
def category : Dtype → Option DtypeCategory
  | .numeric => some .numericC
  | .datetimeLike => some .datetimeC
  | .timedeltaLike => some .datetimeC
  | .boolean => some .boolC
  | .stringLike => some .stringC
  | .categorical => some .categoricalC
  | .interval => some .intervalC
  | .other => none

/-- The four groups into which `dtype_specific_binary`'s guards actually
partition the recognized dtypes (because of the pandas predicate
overlaps): numeric-kind absorbs bool, string-kind absorbs categorical. -/
inductive DispatchGroup where
  | numericG
  | datetimeG
  | stringG
  | intervalG
deriving DecidableEq, Repr

/-- The dispatch group of a dtype under the source's guard structure:
`is_numeric_dtype` captures numeric and bool dtypes in the first guard,
the datetime/timedelta predicates form the second, `is_string_dtype`
captures string-kind and categorical dtypes in the fourth, and
`is_interval_dtype` the sixth; the `is_bool_dtype` and
`is_categorical_dtype` guards are shadowed by earlier ones.  `none` means
no guard can match this side (the mismatch fallback). -/
def dispatchGroup : Dtype → Option DispatchGroup
  | .numeric => some .numericG
  | .boolean => some .numericG
  | .datetimeLike => some .datetimeG
  | .timedeltaLike => some .datetimeG
  | .stringLike => some .stringG
  | .categorical => some .stringG
  | .interval => some .intervalG
  | .other => none

/-! ## Concrete stores, frames and columns used by the witness and
counterexample theorems below -/

/-- A total order on `create_datetime` inputs, so that a collection keyed
by raw (uncoerced) inputs can sort its key list.  Within each constructor
it is the pertinent Python order (`datetime` order, string lexicographic
order); across constructors Python `list.sort` would raise `TypeError`, so
the lifted order is only ever used on homogeneous key sets (the
counterexample store below has a single string key). -/
def DateInput.encode : DateInput → DateTime ⊕ₗ String
  | .dt d => toLex (Sum.inl d)
  | .str s => toLex (Sum.inr s)

instance : LinearOrder DateInput :=
  LinearOrder.lift' DateInput.encode (by
    intro a b h
    cases a <;> cases b <;> simp [DateInput.encode, toLex] at h <;> simp [h])

/-- A Dated Snapshot Store constructed with a *string* date `'2021-01-31'`:
`__init__` forwards the `DatedDataFrame` to `add_data` unchanged. -/
def dfcS : DataFrameCollection DateInput String :=
  DataFrameCollection.init ⟨.str "2021-01-31", "F1", "PX"⟩

/-- Concrete store for the C2 witness: snapshots dated 2021-01-31 and
2021-02-28, identified by opaque snapshot payloads. -/
def dfcW : DataFrameCollection DateTime String :=
  { DATA_ID := "PX"
    data := [(⟨2021, 1, 31⟩, "F1"), (⟨2021, 2, 28⟩, "F2")]
    data_dates := [⟨2021, 1, 31⟩, ⟨2021, 2, 28⟩] }

/-- The spec scenario's initial snapshot: rows keyed A and B with a PRICE
column, already indexed by SEC_ID. -/
def dfAB : DataFrame Val :=
  { index_name := some "SEC_ID"
    cols := ["PRICE"]
    rows := [(.str "A", [.int 10]), (.str "B", [.int 20])] }

/-- The scenario's second snapshot (dated 2021-02-28): only row A. -/
def dfA2 : DataFrame Val :=
  { index_name := some "SEC_ID"
    cols := ["PRICE"]
    rows := [(.str "A", [.int 99])] }

/-- The store the spec's end-to-end scenario intends to build (construction
succeeds once a well-formed `unit` accompanies `def_val`): initial snapshot
`dfAB` at 2021-01-31 with `PRICE` defaulting to 0. -/
def sldC1 : SecurityLevelData Val :=
  { DATA_ID := "PX"
    data := [(⟨2021, 1, 31⟩, dfAB)]
    data_dates := [⟨2021, 1, 31⟩]
    schema := ⟨"SEC_ID", [("PRICE", ⟨"PRICE", some "USD", some (.int 0)⟩)]⟩ }

/-- `sldC1` after inserting the 2021-02-28 snapshot containing only row A. -/
def sldC2 : SecurityLevelData Val :=
  { DATA_ID := "PX"
    data := [(⟨2021, 1, 31⟩, dfAB), (⟨2021, 2, 28⟩, dfA2)]
    data_dates := [⟨2021, 1, 31⟩, ⟨2021, 2, 28⟩]
    schema := ⟨"SEC_ID", [("PRICE", ⟨"PRICE", some "USD", some (.int 0)⟩)]⟩ }

/-- An unnamed-index frame carrying SEC_ID as an ordinary column, for the
C10 witness. -/
def dfRaw : DataFrame Val :=
  { index_name := none
    cols := ["SEC_ID", "PRICE"]
    rows := [(.int 0, [.str "A", .int 10]), (.int 1, [.str "B", .int 20])] }

/-- One-row frames with *different* row labels for the C7 counterexample. -/
def pfL : PFrame Int := { index := ["x"], cols := [(.str "L", [1])] }

/-- Three-column right frame whose row label differs from `pfL`'s. -/
def pfR : PFrame Int :=
  { index := ["y"], cols := [(.str "P", [2]), (.str "Q", [3]), (.str "R", [4])] }

/-- Two-row single-column left frame for the C7 witness. -/
def pfL2 : PFrame Int := { index := ["r1", "r2"], cols := [(.str "L", [1, 2])] }

/-- Two-row three-column right frame sharing `pfL2`'s row labels. -/
def pfR2 : PFrame Int :=
  { index := ["r1", "r2"]
    cols := [(.str "P", [10, 20]), (.str "Q", [30, 40]), (.str "R", [50, 60])] }

/-- A numeric-dtype column for the C8 witness. -/
def serNum : Series Int :=
  { name := some "a", dtype := .numeric, index := ["r1", "r2"], values := [1, 2] }

/-- A string-dtype column, aligned to different labels, for the C8
witness. -/
def serStr : Series Int :=
  { name := some "b", dtype := .stringLike, index := ["s1", "s2"],
    values := [7, 8] }

/-- A trivial concrete binary function for the C8 witness. -/
def nanFn : Series Int → Series Int → Series (Option Int) :=
  fun _ _ => nanSeries []

/-- A bool-dtype column for the C8 counterexample and witness. -/
def serBool : Series Int :=
  { name := some "flag", dtype := .boolean, index := ["r1"], values := [1] }

/-- A second bool-dtype column. -/
def serBool2 : Series Int :=
  { name := some "flag2", dtype := .boolean, index := ["r1"], values := [0] }

/-- A one-row numeric-dtype column. -/
def serNum2 : Series Int :=
  { name := some "qty", dtype := .numeric, index := ["r1"], values := [5] }

/-- A family of distinguishable concrete binary functions: each returns an
empty series tagged with its own name, so the dispatched branch can be
read off the result. -/
def tagFn (tag : String) : Series Int → Series Int → Series (Option Int) :=
  fun _ _ => { name := some tag, dtype := .numeric, index := [], values := [] }

/-! ## Helper lemmas -/

theorem dictGet_eq_none_iff [DecidableEq κ] (d : List (κ × φ)) (k : κ) :
    dictGet d k = none ↔ k ∉ d.map Prod.fst := by
  induction d with
  | nil => simp [dictGet]
  | cons p t ih =>
    by_cases h : p.1 = k <;> simp [dictGet, h, ih, Ne.symm]

theorem dictGet_isSome_iff [DecidableEq κ] (d : List (κ × φ)) (k : κ) :
    (dictGet d k).isSome = true ↔ k ∈ d.map Prod.fst := by
  rcases h : dictGet d k with _ | v
  · rw [dictGet_eq_none_iff] at h; simp [h]
  · have : dictGet d k ≠ none := by simp [h]
    rw [Ne, dictGet_eq_none_iff, not_not] at this
    simp [this]

theorem dictGet_dictInsert_self [DecidableEq κ] (d : List (κ × φ)) (k : κ) (v : φ) :
    dictGet (dictInsert d k v) k = some v := by
  induction d with
  | nil => simp [dictInsert, dictGet]
  | cons p t ih =>
    by_cases h : p.1 = k <;> simp [dictInsert, dictGet, h, ih]

theorem dictGet_dictInsert_ne [DecidableEq κ] (d : List (κ × φ)) (k k' : κ) (v : φ)
    (h : k' ≠ k) : dictGet (dictInsert d k v) k' = dictGet d k' := by
  induction d with
  | nil => simp [dictInsert, dictGet, h, Ne.symm h]
  | cons p t ih =>
    by_cases hp : p.1 = k
    · simp [dictInsert, dictGet, hp, h, Ne.symm h]
    · by_cases hp' : p.1 = k' <;>
        simp [dictInsert, dictGet, hp, hp', h, Ne.symm h, ih]

theorem dictInsert_map_fst [DecidableEq κ] (d : List (κ × φ)) (k : κ) (v : φ) :
    (dictInsert d k v).map Prod.fst =
      if k ∈ d.map Prod.fst then d.map Prod.fst else d.map Prod.fst ++ [k] := by
  induction d with
  | nil => simp [dictInsert]
  | cons p t ih =>
    by_cases h : p.1 = k
    · simp [dictInsert, h]
    · have : ¬ k = p.1 := fun he => h he.symm
      by_cases hm : k ∈ t.map Prod.fst <;>
        simp [dictInsert, h, ih, hm, this]

theorem dictInsert_map_fst_nodup [DecidableEq κ] (d : List (κ × φ)) (k : κ) (v : φ)
    (h : (d.map Prod.fst).Nodup) : ((dictInsert d k v).map Prod.fst).Nodup := by
  rw [dictInsert_map_fst]
  by_cases hm : k ∈ d.map Prod.fst
  · simpa [hm] using h
  · simp only [hm, if_false]
    rw [List.nodup_append]
    refine ⟨h, List.nodup_singleton k, ?_⟩
    intro a ha hb
    rw [List.mem_singleton] at hb
    subst hb
    exact hm ha

theorem bisect_right_eq_zero_iff [LinearOrder κ] {l : List κ} {x : κ}
    (hs : l.Sorted (· < ·)) : bisect_right l x = 0 ↔ ∀ k ∈ l, ¬ k ≤ x := by
  cases l with
  | nil => simp [bisect_right]
  | cons a t =>
    rw [List.sorted_cons] at hs
    constructor
    · intro h0
      have hxa : x < a := by
        by_contra hxa
        simp [bisect_right, hxa] at h0
      intro k hk
      rw [List.mem_cons] at hk
      rcases hk with rfl | hk
      · exact not_le_of_lt hxa
      · exact not_le_of_lt (lt_trans hxa (hs.1 k hk))
    · intro h
      have : x < a := lt_of_not_le (h a (List.mem_cons_self a t))
      simp [bisect_right, this]

theorem bisect_right_getD_le [LinearOrder κ] [Inhabited κ] {l : List κ} {x : κ}
    (hs : l.Sorted (· < ·)) (h : bisect_right l x ≠ 0) :
    l.getD (bisect_right l x - 1) default ∈ l ∧
      l.getD (bisect_right l x - 1) default ≤ x := by
  induction l with
  | nil => simp [bisect_right] at h
  | cons a t ih =>
    rw [List.sorted_cons] at hs
    by_cases hxa : x < a
    · simp [bisect_right, hxa] at h
    · have hax : a ≤ x := le_of_not_lt hxa
      have hb : bisect_right (a :: t) x = bisect_right t x + 1 := by
        simp [bisect_right, hxa]
      rcases hzero : bisect_right t x with _ | m
      · simp [hb, hzero, hax]
      · have ht := ih hs.2 (by rw [hzero]; exact Nat.succ_ne_zero m)
        rw [hzero] at ht
        have hidx : bisect_right (a :: t) x - 1 = m + 1 := by
          rw [hb, hzero]; omega
        rw [hidx, List.getD_cons_succ]
        simp only [Nat.add_sub_cancel] at ht
        exact ⟨List.mem_cons_of_mem a ht.1, ht.2⟩

theorem bisect_right_getD_greatest [LinearOrder κ] [Inhabited κ] {l : List κ}
    {x k : κ} (hs : l.Sorted (· < ·)) (hk : k ∈ l) (hkx : k ≤ x) :
    bisect_right l x ≠ 0 ∧ k ≤ l.getD (bisect_right l x - 1) default := by
  induction l with
  | nil => simp at hk
  | cons a t ih =>
    rw [List.sorted_cons] at hs
    rw [List.mem_cons] at hk
    have hxa : ¬ x < a := by
      rcases hk with rfl | hk
      · exact not_lt_of_le hkx
      · exact not_lt_of_le (le_of_lt (lt_of_lt_of_le (hs.1 k hk) hkx))
    have hb : bisect_right (a :: t) x = bisect_right t x + 1 := by
      simp [bisect_right, hxa]
    rcases hzero : bisect_right t x with _ | m
    · -- no element of t is ≤ x, so k must be the head a
      have hnone := (bisect_right_eq_zero_iff hs.2).mp hzero
      rcases hk with rfl | hk
      · simp [hb, hzero]
      · exact absurd hkx (hnone k hk)
    · have hgd : bisect_right (a :: t) x - 1 = m + 1 := by
        rw [hb, hzero]; omega
      rcases hk with rfl | hk
      · -- k = a: the selected element lies in t, hence is above a
        have ht := bisect_right_getD_le hs.2 (l := t) (x := x)
          (by rw [hzero]; exact Nat.succ_ne_zero m)
        rw [hzero] at ht
        simp only [Nat.add_sub_cancel] at ht
        refine ⟨by rw [hb]; exact Nat.succ_ne_zero _, ?_⟩
        rw [hgd, List.getD_cons_succ]
        exact le_of_lt (hs.1 _ ht.1)
      · have hih := ih hs.2 hk
        rw [hzero] at hih
        simp only [Nat.add_sub_cancel] at hih
        refine ⟨by rw [hb]; exact Nat.succ_ne_zero _, ?_⟩
        rw [hgd, List.getD_cons_succ]
        exact hih.2

theorem add_data_data_eq [LinearOrder κ] (c : DataFrameCollection κ φ)
    (ddf : DatedDataFrame κ φ) :
    (c.add_data ddf).data = dictInsert c.data ddf.date ddf.data_frame := rfl

theorem add_data_dates_eq [LinearOrder κ] (c : DataFrameCollection κ φ)
    (ddf : DatedDataFrame κ φ) :
    (c.add_data ddf).data_dates =
      List.insertionSort (· ≤ ·) ((c.add_data ddf).data.map Prod.fst) := rfl

theorem add_data_dates_sorted [LinearOrder κ] (c : DataFrameCollection κ φ)
    (ddf : DatedDataFrame κ φ) :
    (c.add_data ddf).data_dates.Sorted (· ≤ ·) := by
  rw [add_data_dates_eq]
  exact List.sorted_insertionSort (· ≤ ·) _

theorem add_data_dates_perm [LinearOrder κ] (c : DataFrameCollection κ φ)
    (ddf : DatedDataFrame κ φ) :
    (c.add_data ddf).data_dates.Perm ((c.add_data ddf).data.map Prod.fst) := by
  rw [add_data_dates_eq]
  exact List.perm_insertionSort (· ≤ ·) _

theorem wf_add_data [LinearOrder κ] {c : DataFrameCollection κ φ}
    (h : c.WF) (ddf : DatedDataFrame κ φ) : (c.add_data ddf).WF := by
  have hkeys : (c.data.map Prod.fst).Nodup := h.2.nodup h.1.nodup
  have hkeys2 : ((c.add_data ddf).data.map Prod.fst).Nodup := by
    rw [add_data_data_eq]
    exact dictInsert_map_fst_nodup _ _ _ hkeys
  have hperm := add_data_dates_perm c ddf
  have hnd : (c.add_data ddf).data_dates.Nodup := hperm.symm.nodup hkeys2
  exact ⟨(add_data_dates_sorted c ddf).lt_of_le hnd, hperm⟩

theorem mapM_ok {ε γ δ : Type} {g : γ → Except ε δ} {hf : γ → δ}
    {xs : List γ} (h : ∀ x ∈ xs, g x = .ok (hf x)) :
    xs.mapM g = .ok (xs.map hf) := by
  induction xs with
  | nil => simp [List.mapM_nil]; rfl
  | cons x t ih =>
    rw [List.mapM_cons, h x (List.mem_cons_self x t),
      ih (fun y hy => h y (List.mem_cons_of_mem x hy))]
    rfl

theorem alignVals_cons_of_not_mem [DecidableEq ℓ] {a : ℓ} {t : List ℓ}
    {v : γ} {vs : List γ} {labels : List ℓ} (h : a ∉ labels) :
    alignVals (a :: t) (v :: vs) labels = alignVals t vs labels := by
  induction labels with
  | nil => rfl
  | cons lbl rest ih =>
    have hne : ¬ a = lbl := fun he => h (he ▸ List.mem_cons_self lbl rest)
    have hrest : a ∉ rest := fun hm => h (List.mem_cons_of_mem lbl hm)
    rw [alignVals, alignVals, List.findIdx?_cons]
    have hpa : (fun x => decide (x = lbl)) a = false := by simp [hne]
    simp only [hpa, Bool.false_eq_true, if_false, List.findIdx?_succ]
    rcases hidx : t.findIdx? (fun x => decide (x = lbl)) with _ | i
    · simp
    · simp only [Option.map_some]
      rcases hv : vs[i]? with _ | v2
    -- the (i+1)-th entry of v :: vs is the i-th entry of vs
      · simp [List.getElem?_cons_succ, hv]
      · simp [List.getElem?_cons_succ, hv, ih hrest]

theorem alignVals_self [DecidableEq ℓ] {l : List ℓ} {vs : List γ}
    (hnd : l.Nodup) (hlen : vs.length = l.length) :
    alignVals l vs l = .ok vs := by
  induction l generalizing vs with
  | nil =>
    cases vs with
    | nil => rfl
    | cons v vs => simp at hlen
  | cons a t ih =>
    cases vs with
    | nil => simp at hlen
    | cons v vs =>
      rw [List.nodup_cons] at hnd
      have hlen2 : vs.length = t.length := by
        simpa using hlen
      have hfind : List.findIdx? (fun x => decide (x = a)) (a :: t) = some 0 := by
        rw [List.findIdx?_cons]; simp
      conv_lhs => rw [alignVals]
      simp only [hfind, List.getElem?_cons_zero,
        alignVals_cons_of_not_mem hnd.1, ih hnd.2 hlen2]

theorem findIdx_exists {p : γ → Bool} {l : List γ} (h : ∃ x ∈ l, p x = true) :
    ∃ j, l.findIdx? p = some j ∧ j < l.length := by
  induction l with
  | nil => simp at h
  | cons a t ih =>
    rw [List.findIdx?_cons]
    by_cases ha : p a = true
    · exact ⟨0, by simp [ha], by simp⟩
    · obtain ⟨x, hx, hpx⟩ := h
      rw [List.mem_cons] at hx
      rcases hx with rfl | hx
      · exact absurd hpx ha
      · obtain ⟨j, hj, hlt⟩ := ih ⟨x, hx, hpx⟩
        refine ⟨j + 1, ?_, by simpa using Nat.succ_lt_succ hlt⟩
        simp [ha, List.findIdx?_succ, hj]

/-! ## Claim theorems -/

/-- C2: for every well-formed store and every query input that coerces to a
canonical date `q`, `get_last_data_date` (the spec's `resolve_as_of`)
(i) returns `q` itself when `q` is an exact stored key; (ii) otherwise
returns the greatest stored key strictly less than `q`; (iii) fails with
`ValueError('No Earlier Data Available!')` when no stored key is ≤ `q`; and
(iv) never returns a key greater than `q`. -/
theorem C2_resolve_as_of {φ : Type} (c : DataFrameCollection DateTime φ)
    (hwf : c.WF) (di : DateInput) (q : DateTime)
    (hq : create_datetime di = .ok q) :
    (q ∈ c.data.map Prod.fst → c.get_last_data_date di = .ok q) ∧
    (∀ k, q ∉ c.data.map Prod.fst → k ∈ c.data.map Prod.fst → k < q →
      (∀ k' ∈ c.data.map Prod.fst, k' < q → k' ≤ k) →
      c.get_last_data_date di = .ok k) ∧
    ((∀ k ∈ c.data.map Prod.fst, ¬ k ≤ q) →
      c.get_last_data_date di =
        .error (.valueError "No Earlier Data Available!")) ∧
    (∀ r, c.get_last_data_date di = .ok r → r ≤ q) := by
  refine ⟨?_, ?_, ?_, ?_⟩
  · -- exact match
    intro hmem
    have hs := (dictGet_isSome_iff c.data q).mpr hmem
    rcases hd : dictGet c.data q with _ | f
    · rw [hd] at hs; simp at hs
    · simp only [DataFrameCollection.get_last_data_date, hq, hd]
  · -- nearest strictly-prior key
    intro k hnot hmem hlt hmax
    have hnone : dictGet c.data q = none := (dictGet_eq_none_iff c.data q).mpr hnot
    have hkdd : k ∈ c.data_dates := hwf.2.mem_iff.mpr hmem
    have hg := bisect_right_getD_greatest hwf.1 hkdd (le_of_lt hlt)
    have hle := bisect_right_getD_le hwf.1 hg.1
    simp only [DataFrameCollection.get_last_data_date, hq, hnone]
    rw [if_pos hg.1]
    congr 1
    have hgk : c.data_dates.getD (bisect_right c.data_dates q - 1) default ∈
        c.data.map Prod.fst := hwf.2.mem_iff.mp hle.1
    have hne : c.data_dates.getD (bisect_right c.data_dates q - 1) default ≠ q :=
      fun he => hnot (he ▸ hgk)
    exact le_antisymm (hmax _ hgk (lt_of_le_of_ne hle.2 hne)) hg.2
  · -- no key at or before the query
    intro hall
    have hqnot : q ∉ c.data.map Prod.fst := fun hmem => hall q hmem (le_refl q)
    have hnone : dictGet c.data q = none := (dictGet_eq_none_iff c.data q).mpr hqnot
    have hzero : bisect_right c.data_dates q = 0 :=
      (bisect_right_eq_zero_iff hwf.1).mpr
        (fun k hk => hall k (hwf.2.mem_iff.mp hk))
    simp only [DataFrameCollection.get_last_data_date, hq, hnone]
    rw [if_neg (by simp [hzero])]
  · -- never a future key
    intro r hr
    simp only [DataFrameCollection.get_last_data_date, hq] at hr
    rcases hd : dictGet c.data q with _ | f
    · rw [hd] at hr
      by_cases hz : bisect_right c.data_dates q ≠ 0
      · rw [if_pos hz] at hr
        have hle := bisect_right_getD_le hwf.1 hz
        cases hr
        exact hle.2
      · rw [if_neg hz] at hr
        cases hr
    · rw [hd] at hr
      cases hr
      exact le_refl q

/-- Witness for C2: on the concrete two-date store, querying 2021-02-15
(present in neither snapshot) resolves to the greatest earlier key
2021-01-31. -/
theorem C2_resolve_as_of_witness :
    dfcW.WF ∧ create_datetime (.str "2021-02-15") = .ok ⟨2021, 2, 15⟩ ∧
      dfcW.get_last_data_date (.str "2021-02-15") = .ok ⟨2021, 1, 31⟩ :=
  ⟨by constructor <;> decide, by decide,
    (C2_resolve_as_of dfcW ⟨by decide, by decide⟩ (.str "2021-02-15")
          ⟨2021, 2, 15⟩ (by decide)).2.1
      ⟨2021, 1, 31⟩ (by decide) (by decide) (by decide) (by decide)⟩

/-- C4: after construction and after any `add_data` call the derived key
list `data_dates` is strictly sorted ascending, duplicate-free, and a
permutation of (hence equal as a set to) the mapping's key set; inserting
at an already-present date replaces the prior snapshot and leaves the
length of the sorted key list unchanged. -/
theorem C4_invariant {κ φ : Type} [LinearOrder κ] :
    (∀ ddf : DatedDataFrame κ φ,
      (DataFrameCollection.init ddf).data_dates.Sorted (· < ·) ∧
      (DataFrameCollection.init ddf).data_dates.Nodup ∧
      (DataFrameCollection.init ddf).data_dates.Perm
        ((DataFrameCollection.init ddf).data.map Prod.fst)) ∧
    (∀ (c : DataFrameCollection κ φ) (ddf : DatedDataFrame κ φ), c.WF →
      (c.add_data ddf).data_dates.Sorted (· < ·) ∧
      (c.add_data ddf).data_dates.Nodup ∧
      (c.add_data ddf).data_dates.Perm ((c.add_data ddf).data.map Prod.fst)) ∧
    (∀ (c : DataFrameCollection κ φ) (ddf : DatedDataFrame κ φ), c.WF →
      ddf.date ∈ c.data.map Prod.fst →
      (c.add_data ddf).data_dates.length = c.data_dates.length ∧
      dictGet (c.add_data ddf).data ddf.date = some ddf.data_frame) := by
  have hwfe : ∀ tag : String,
      (DataFrameCollection.mk tag ([] : List (κ × φ)) []).WF :=
    fun tag => ⟨List.sorted_nil, List.Perm.nil⟩
  refine ⟨?_, ?_, ?_⟩
  · intro ddf
    have h := wf_add_data (hwfe ddf.DATA_ID) ddf
    exact ⟨h.1, h.1.nodup, h.2⟩
  · intro c ddf hwf
    have h := wf_add_data hwf ddf
    exact ⟨h.1, h.1.nodup, h.2⟩
  · intro c ddf hwf hmem
    constructor
    · have hkeys : ((c.add_data ddf).data.map Prod.fst) = c.data.map Prod.fst := by
        rw [add_data_data_eq, dictInsert_map_fst, if_pos hmem]
      have h1 := (add_data_dates_perm c ddf).length_eq
      rw [hkeys] at h1
      rw [h1, hwf.2.length_eq]
    · rw [add_data_data_eq]
      exact dictGet_dictInsert_self c.data ddf.date ddf.data_frame

/-- Witness for C4: inserting a replacement snapshot at the already-present
date 2021-01-31 of the concrete store keeps the two sorted keys and swaps
the stored payload. -/
theorem C4_invariant_witness :
    dfcW.WF ∧ (⟨2021, 1, 31⟩ : DateTime) ∈ dfcW.data.map Prod.fst ∧
      (dfcW.add_data ⟨⟨2021, 1, 31⟩, "F3", "PX"⟩).data_dates.length =
        dfcW.data_dates.length ∧
      dictGet (dfcW.add_data ⟨⟨2021, 1, 31⟩, "F3", "PX"⟩).data ⟨2021, 1, 31⟩ =
        some "F3" :=
  ⟨⟨by decide, by decide⟩, by decide,
    (C4_invariant.2.2 dfcW ⟨⟨2021, 1, 31⟩, "F3", "PX"⟩ ⟨by decide, by decide⟩
      (by decide))⟩

/-- C3 (amended): `add_data` stores/overwrites `data[ddf.date] =
ddf.data_frame` using the `date` field exactly as given (no
canonicalization), changes no other mapping entry, rebuilds `data_dates`
as a sorted permutation of the key set, and has no other effect
(`DATA_ID` unchanged). -/
theorem C3_add_data_raw_key {κ φ : Type} [LinearOrder κ]
    (c : DataFrameCollection κ φ) (ddf : DatedDataFrame κ φ) :
    dictGet (c.add_data ddf).data ddf.date = some ddf.data_frame ∧
    (∀ k, k ≠ ddf.date → dictGet (c.add_data ddf).data k = dictGet c.data k) ∧
    (c.add_data ddf).data_dates.Sorted (· ≤ ·) ∧
    (c.add_data ddf).data_dates.Perm ((c.add_data ddf).data.map Prod.fst) ∧
    (c.add_data ddf).DATA_ID = c.DATA_ID := by
  refine ⟨?_, ?_, add_data_dates_sorted c ddf, add_data_dates_perm c ddf, rfl⟩
  · rw [add_data_data_eq]
    exact dictGet_dictInsert_self c.data ddf.date ddf.data_frame
  · intro k hk
    rw [add_data_data_eq]
    exact dictGet_dictInsert_ne c.data ddf.date k ddf.data_frame hk

/-- Witness for the amended C3: inserting a snapshot at the new date
2021-03-31 into the concrete store leaves the entry at 2021-01-31 alone
and stores the new payload under the raw key. -/
theorem C3_add_data_raw_key_witness :
    (⟨2021, 1, 31⟩ : DateTime) ≠ (⟨2021, 3, 31⟩ : DateTime) ∧
    dictGet (dfcW.add_data ⟨⟨2021, 3, 31⟩, "F4", "PX"⟩).data ⟨2021, 1, 31⟩ =
      dictGet dfcW.data ⟨2021, 1, 31⟩ ∧
    dictGet (dfcW.add_data ⟨⟨2021, 3, 31⟩, "F4", "PX"⟩).data ⟨2021, 3, 31⟩ =
      some "F4" :=
  ⟨by decide,
    (C3_add_data_raw_key dfcW ⟨⟨2021, 3, 31⟩, "F4", "PX"⟩).2.1 ⟨2021, 1, 31⟩
      (by decide),
    (C3_add_data_raw_key dfcW ⟨⟨2021, 3, 31⟩, "F4", "PX"⟩).1⟩

/-- Counterexample to C3 as stated: inserting a snapshot whose date field
is the string `'2021-01-31'` keys the mapping by that raw string, not by
the canonicalized date `2021-01-31` that `create_datetime` (section 4.1)
would produce — `add_data` never calls the date coercion. -/
theorem C3_counterexample :
    create_datetime (.str "2021-01-31") = .ok ⟨2021, 1, 31⟩ ∧
    dfcS.data.map Prod.fst = [.str "2021-01-31"] ∧
    DateInput.dt ⟨2021, 1, 31⟩ ∉ dfcS.data.map Prod.fst := by
  refine ⟨by decide, by decide, by decide⟩

/-- C9: the metadata validation block runs whenever *either* `unit` or
`def_val` is non-`None` and type-checks both, so supplying exactly one of
them raises `ValueError` even when the supplied argument is well-formed;
a construction can succeed only when both are `None` or both are
supplied. -/
theorem C9_metadata_validation {α : Type} [DecidableEq α] [Inhabited α]
    (ddf : DatedDataFrame DateTime (DataFrame α)) :
    (∀ ua : UnitArg, SecurityLevelData.init ddf (some ua) none =
      .error (.valueError "Default Value must be a single INT, FLOAT or dict!")) ∧
    (∀ dv : DefValArg α, SecurityLevelData.init ddf none (some dv) =
      .error (.valueError "Unit Type must be a single STR or dict!")) ∧
    (∀ (unit : Option UnitArg) (def_val : Option (DefValArg α)),
      (SecurityLevelData.init ddf unit def_val).isOk = true →
      (unit = none ∧ def_val = none) ∨
        (unit.isSome = true ∧ def_val.isSome = true)) := by
  refine ⟨?_, ?_, ?_⟩
  · intro ua; cases ua <;> rfl
  · intro dv; rfl
  · intro unit def_val h
    match unit, def_val with
    | none, none => exact Or.inl ⟨rfl, rfl⟩
    | some ua, none =>
      cases ua <;> exact Bool.noConfusion (show false = true from h)
    | none, some dv =>
      exact Bool.noConfusion (show false = true from h)
    | some ua, some dv => exact Or.inr ⟨rfl, rfl⟩

/-- Witness for C9: on the concrete scenario snapshot, construction with
both arguments left `None` succeeds, landing in the allowed left branch. -/
theorem C9_metadata_validation_witness :
    (SecurityLevelData.init ⟨⟨2021, 1, 31⟩, dfAB, "PX"⟩
        (none : Option UnitArg) (none : Option (DefValArg Val))).isOk = true ∧
    (((none : Option UnitArg) = none ∧
        (none : Option (DefValArg Val)) = none) ∨
      ((none : Option UnitArg).isSome = true ∧
        (none : Option (DefValArg Val)).isSome = true)) :=
  ⟨by decide,
    (C9_metadata_validation ⟨⟨2021, 1, 31⟩, dfAB, "PX"⟩).2.2 none none (by decide)⟩

/-- C1: the spec's end-to-end scenario fails at its first step on this
code: constructing the store with `def_val={'PRICE': 0}` and no `unit`
raises `ValueError('Unit Type must be a single STR or dict!')`, because the
validation block type-checks `unit` whenever `def_val` is supplied
(contradicting the class docstring's "optional UNIT and/or DEF_VAL").  The
remaining conjuncts show the rest of the scenario is exactly right once a
well-formed `unit` accompanies `def_val`: construction yields `sldC1`,
and after inserting the 2021-02-28 snapshot, `value_at('B','PRICE')` as of
2021-02-28 falls back to the default 0 while `value_at('A','PRICE')` as of
2021-02-15 returns the 2021-01-31 stored value. -/
theorem C1_end_to_end :
    SecurityLevelData.init ⟨⟨2021, 1, 31⟩, dfAB, "PX"⟩ none
        (some (.dict [("PRICE", Val.int 0)])) =
      .error (.valueError "Unit Type must be a single STR or dict!") ∧
    SecurityLevelData.init ⟨⟨2021, 1, 31⟩, dfAB, "PX"⟩
        (some (.str "USD")) (some (.dict [("PRICE", Val.int 0)])) =
      .ok (sldC1, dfAB) ∧
    sldC1.add_data ⟨⟨2021, 2, 28⟩, dfA2, "PX"⟩ = sldC2 ∧
    sldC2.get_value (.str "B") "PRICE" (.str "2021-02-28") =
      .ok (some (.int 0)) ∧
    sldC2.get_value (.str "A") "PRICE" (.str "2021-02-15") =
      .ok (some (.int 10)) := by
  refine ⟨rfl, by decide, by decide, by decide, by decide⟩

/-- C6: for a resolvable query date (snapshot `f`), `get_value` fails with
`ValueError('<field> Field not found in data schema!')` exactly when the
field is undeclared; for a declared field it returns the stored cell when
`df.loc` resolves, and the field's configured `DEF_VAL` (possibly the
"unset" `None`) on the `KeyError` path — in particular it never raises for
a merely-missing row. -/
theorem C6_get_value {α : Type} [DecidableEq α] (s : SecurityLevelData α)
    (di : DateInput) (f : DataFrame α) (sec_id : α) (field : String) (v : α)
    (hres : s.toDataFrameCollection.get_latest_data di = .ok f) :
    (field ∉ s.get_field_names →
      s.get_value sec_id field di =
        .error (.valueError (field ++ " Field not found in data schema!"))) ∧
    (field ∈ s.get_field_names → f.loc sec_id field = some v →
      s.get_value sec_id field di = .ok (some v)) ∧
    (∀ fd, field ∈ s.get_field_names →
      dictGet s.schema.FIELDS field = some fd → f.loc sec_id field = none →
      s.get_value sec_id field di = .ok fd.DEF_VAL) := by
  refine ⟨?_, ?_, ?_⟩
  · intro h
    simp only [SecurityLevelData.get_value, hres]
    rw [if_neg h]
  · intro hmem hloc
    simp only [SecurityLevelData.get_value, hres, if_pos hmem, hloc]
  · intro fd hmem hfd hloc
    simp only [SecurityLevelData.get_value, hres, if_pos hmem, hloc, hfd]

/-- Witness for C6: on the two-snapshot scenario store, row B is absent
from the snapshot resolved for 2021-02-28 and `get_value` returns the
configured default 0 instead of raising. -/
theorem C6_get_value_witness :
    sldC2.toDataFrameCollection.get_latest_data (.str "2021-02-28") =
        .ok dfA2 ∧
    "PRICE" ∈ sldC2.get_field_names ∧
    dictGet sldC2.schema.FIELDS "PRICE" =
      some ⟨"PRICE", some "USD", some (.int 0)⟩ ∧
    dfA2.loc (Val.str "B") "PRICE" = none ∧
    sldC2.get_value (.str "B") "PRICE" (.str "2021-02-28") =
      .ok (some (.int 0)) :=
  ⟨by decide, by decide, by decide, by decide,
    (C6_get_value sldC2 (.str "2021-02-28") dfA2 (.str "B") "PRICE"
          (Val.int 0) (by decide)).2.2
      ⟨"PRICE", some "USD", some (.int 0)⟩ (by decide) (by decide) (by decide)⟩

/-- C10: when the initial snapshot's row index is not labeled `SEC_ID` but a
`SEC_ID` column exists (at position `j`), construction promotes that column
to the row index via `set_index(..., inplace=True)`.  The caller-visible
frame after construction (second component — the same object, mutated in
place) and the frame stored in the collection are both the promoted frame:
`SEC_ID` is removed from the columns, each row is re-keyed by its `SEC_ID`
cell, and no other column or cell changes. -/
theorem C10_index_promotion {α : Type} [DecidableEq α] [Inhabited α]
    (ddf : DatedDataFrame DateTime (DataFrame α)) (j : Nat)
    (h1 : ddf.data_frame.index_name ≠ some "SEC_ID")
    (h2 : "SEC_ID" ∈ ddf.data_frame.cols)
    (hj : ddf.data_frame.cols.findIdx? (fun c => c == "SEC_ID") = some j) :
    (SecurityLevelData.init ddf none none).map Prod.snd =
      .ok (ddf.data_frame.set_index "SEC_ID") ∧
    (SecurityLevelData.init ddf none none).map
        (fun r => dictGet r.1.data ddf.date) =
      .ok (some (ddf.data_frame.set_index "SEC_ID")) ∧
    (ddf.data_frame.set_index "SEC_ID").index_name = some "SEC_ID" ∧
    (ddf.data_frame.set_index "SEC_ID").cols = ddf.data_frame.cols.eraseIdx j ∧
    (ddf.data_frame.set_index "SEC_ID").rows =
      ddf.data_frame.rows.map (fun r => (r.2.getD j default, r.2.eraseIdx j)) := by
  have hres : resolveIndex ddf.data_frame =
      .ok (ddf.data_frame.set_index "SEC_ID") := by
    rw [resolveIndex, if_pos h1, if_pos h2]
  refine ⟨?_, ?_, rfl, ?_, ?_⟩
  · simp only [SecurityLevelData.init, Option.isSome_none, Bool.or_self,
      Bool.false_eq_true, if_false, hres, Except.map]
  · simp only [SecurityLevelData.init, Option.isSome_none, Bool.or_self,
      Bool.false_eq_true, if_false, hres, Except.map,
      DataFrameCollection.init, DataFrameCollection.add_data, dictInsert,
      dictGet, if_pos]
  · simp [DataFrame.set_index, hj]
  · simp [DataFrame.set_index, hj]

/-- Witness for C10: constructing from `dfRaw` promotes its `SEC_ID` column
(position 0) into the row index, and the caller's frame is re-indexed. -/
theorem C10_index_promotion_witness :
    dfRaw.index_name ≠ some "SEC_ID" ∧ "SEC_ID" ∈ dfRaw.cols ∧
    dfRaw.cols.findIdx? (fun c => c == "SEC_ID") = some 0 ∧
    (SecurityLevelData.init ⟨⟨2021, 1, 31⟩, dfRaw, "PX"⟩ none none).map
        Prod.snd = .ok (dfRaw.set_index "SEC_ID") ∧
    dfRaw.set_index "SEC_ID" =
      { index_name := some "SEC_ID"
        cols := ["PRICE"]
        rows := [(.str "A", [.int 10]), (.str "B", [.int 20])] } :=
  ⟨by decide, by decide, by decide,
    (C10_index_promotion ⟨⟨2021, 1, 31⟩, dfRaw, "PX"⟩ 0 (by decide) (by decide)
        (by decide)).1,
    by decide⟩

/-- C5: for string inputs (no explicit format, not a timestamp) the format
is inferred in exactly this precedence order — a `-` anywhere selects
`%Y-%m-%d`; else a `/` selects `%m/%d/%Y`; else length 8 selects `%Y%m%d`;
else length 6 selects `%Y%m`; anything else fails with
`ValueError('Cannot convert date_str - format not recognized!')` — and
each selected parser's failure is returned to the caller unchanged. -/
theorem C5_format_inference (s : String) :
    (s.data.contains '-' = true →
      create_datetime (.str s) = parse_Y_m_d s.data) ∧
    (s.data.contains '-' = false → s.data.contains '/' = true →
      create_datetime (.str s) = parse_m_d_Y s.data) ∧
    (s.data.contains '-' = false → s.data.contains '/' = false →
      s.data.length = 8 → create_datetime (.str s) = parse_Ymd s.data) ∧
    (s.data.contains '-' = false → s.data.contains '/' = false →
      s.data.length ≠ 8 → s.data.length = 6 →
      create_datetime (.str s) = parse_Ym s.data) ∧
    (s.data.contains '-' = false → s.data.contains '/' = false →
      s.data.length ≠ 8 → s.data.length ≠ 6 →
      create_datetime (.str s) =
        .error (.valueError "Cannot convert date_str - format not recognized!")) := by
  refine ⟨?_, ?_, ?_, ?_, ?_⟩
  · intro h1
    simp only [create_datetime]
    rw [if_pos h1]
  · intro h1 h2
    simp only [create_datetime]
    rw [if_neg (by simpa using h1), if_pos h2]
  · intro h1 h2 h3
    simp only [create_datetime]
    rw [if_neg (by simpa using h1), if_neg (by simpa using h2), if_pos h3]
  · intro h1 h2 h3 h4
    simp only [create_datetime]
    rw [if_neg (by simpa using h1), if_neg (by simpa using h2), if_neg h3, if_pos h4]
  · intro h1 h2 h3 h4
    simp only [create_datetime]
    rw [if_neg (by simpa using h1), if_neg (by simpa using h2), if_neg h3, if_neg h4]

/-- Witness for C5: `'2021-02-15'` contains a dash and is parsed with
`%Y-%m-%d`, yielding February 15th 2021. -/
theorem C5_format_inference_witness :
    ("2021-02-15").data.contains '-' = true ∧
    create_datetime (.str "2021-02-15") = parse_Y_m_d ("2021-02-15").data ∧
    parse_Y_m_d ("2021-02-15").data = .ok ⟨2021, 2, 15⟩ :=
  ⟨by decide, (C5_format_inference "2021-02-15").1 (by decide), by decide⟩

theorem applyCol_broadcast {α β : Type} (left right : PFrame α)
    (f : List α → List α → List β) (c0 : ColLabel) (lv : List α)
    (hl : left.cols = [(c0, lv)])
    (hidx : left.index = right.index) (hnd : right.index.Nodup)
    (hlen : lv.length = right.index.length) (cp : ColLabel × List α)
    (hcp : cp ∈ right.cols) :
    applyCol (broadcastFrame left right.cols.length) right f false true cp =
      .ok (cp.1, f lv cp.2) := by
  obtain ⟨j, hj, hjlt⟩ := findIdx_exists (p := fun p => p.1 == cp.1)
    ⟨cp, hcp, by simp⟩
  have hv : (broadcastFrame left right.cols.length).cols[j]? =
      some (ColLabel.nat j, lv) := by
    simp [broadcastFrame, hl, List.getElem?_map, List.getElem?_range hjlt]
  have hpos : colByPos (broadcastFrame left right.cols.length) right cp.1 =
      .ok lv := by
    simp only [colByPos, hj, hv]
  have halign : alignVals (broadcastFrame left right.cols.length).index lv
      right.index = .ok lv := by
    show alignVals left.index lv right.index = .ok lv
    rw [hidx]
    exact alignVals_self hnd hlen
  simp only [applyCol, hpos, halign]

/-- C7 (amended): with `ignore_columns=True`, a single-column `left`, an
n-column `right` (n > 1), and identical duplicate-free row-label
sequences (pandas aligns the broadcast left column by row label —
`left.loc[x.index, ...]` — so equal row *counts* alone do not suffice, see
the counterexample), `apply_columnwise` broadcasts the single column and
returns the n-column table whose i-th column is `binary_func(left_column,
right_column_i)`. -/
theorem C7_broadcast_single_column {α β : Type} (left right : PFrame α)
    (f : List α → List α → List β) (c0 : ColLabel) (lv : List α)
    (hl : left.cols = [(c0, lv)]) (hn : 1 < right.cols.length)
    (hidx : left.index = right.index) (hnd : right.index.Nodup)
    (hlen : lv.length = right.index.length) :
    apply_columnwise left right f false true =
      .ok { index := right.index
            cols := right.cols.map (fun cp => (cp.1, f lv cp.2)) } := by
  have hrows : ¬ left.index.length ≠ right.index.length := by
    rw [hidx]; exact fun h => h rfl
  have hcols : left.cols.length ≠ right.cols.length := by
    rw [hl]
    simp only [List.length_singleton]
    omega
  have hone : left.cols.length = 1 := by rw [hl]; rfl
  rw [apply_columnwise, if_neg hrows, reconcileCols, if_pos hcols]
  simp only [if_pos rfl, hone, if_pos]
  rw [applyFrame,
    mapM_ok (fun cp hcp =>
      applyCol_broadcast left right f c0 lv hl hidx hnd hlen cp hcp)]

/-- Counterexample to C7 as stated: equal row counts (one row each) and a
single-column left against a 3-column right, yet `apply_columnwise` with
`ignore_columns=True` raises `KeyError` instead of returning a 3-column
table, because the broadcast left column is aligned by row label
(`left.loc[x.index, ...]`) and `'y'` is not in `left`'s index. -/
theorem C7_counterexample :
    pfL.index.length = pfR.index.length ∧ pfL.cols.length = 1 ∧
    pfR.cols.length = 3 ∧
    apply_columnwise pfL pfR (fun a b => a ++ b) false true =
      .error (.keyError "label not found") :=
  ⟨rfl, rfl, rfl, by decide⟩

/-- Witness for the amended C7: broadcasting `[1, 2]` over the three
columns of `pfR2` under elementwise addition yields the three summed
columns. -/
theorem C7_broadcast_single_column_witness :
    pfL2.cols = [(.str "L", [1, 2])] ∧ 1 < pfR2.cols.length ∧
    pfL2.index = pfR2.index ∧ pfR2.index.Nodup ∧
    apply_columnwise pfL2 pfR2
        (fun a b => List.zipWith (fun x y => x + y) a b) false true =
      .ok { index := ["r1", "r2"]
            cols := [(.str "P", [11, 22]), (.str "Q", [31, 42]),
              (.str "R", [51, 62])] } := by
  refine ⟨rfl, by decide, rfl, by decide, ?_⟩
  have h := C7_broadcast_single_column pfL2 pfR2
    (fun a b => List.zipWith (fun x y => x + y) a b) (.str "L") [1, 2] rfl
    (by decide) rfl (by decide) (by decide)
  rw [h]
  decide
/-- Counterexample to C8 as stated: pandas' `is_numeric_dtype` is true for
bool dtypes, so a bool column against a numeric column — whose spec value
categories *differ* — is captured by the dispatcher's first guard and
routed to `numerics` instead of the claimed NaN fallback; and a bool/bool
pair — a *shared* recognized category — likewise invokes `numerics`, not
the corresponding `bools` function. -/
theorem C8_counterexample :
    category serBool.dtype ≠ category serNum2.dtype ∧
    dtype_specific_binary serBool serNum2 (tagFn "numerics") (tagFn "datetimes")
        (tagFn "bools") (tagFn "strings") (tagFn "categoricals")
        (tagFn "intervals") "ignore" =
      .ok (false, tagFn "numerics" serBool serNum2) ∧
    dtype_specific_binary serBool serNum2 (tagFn "numerics") (tagFn "datetimes")
        (tagFn "bools") (tagFn "strings") (tagFn "categoricals")
        (tagFn "intervals") "ignore" ≠ .ok (true, nanSeries serNum2.index) ∧
    category serBool.dtype = category serBool2.dtype ∧
    dtype_specific_binary serBool serBool2 (tagFn "numerics") (tagFn "datetimes")
        (tagFn "bools") (tagFn "strings") (tagFn "categoricals")
        (tagFn "intervals") "ignore" =
      .ok (false, tagFn "numerics" serBool serBool2) ∧
    dtype_specific_binary serBool serBool2 (tagFn "numerics") (tagFn "datetimes")
        (tagFn "bools") (tagFn "strings") (tagFn "categoricals")
        (tagFn "intervals") "ignore" ≠
      .ok (false, tagFn "bools" serBool serBool2) := by
  refine ⟨by decide, by decide, by decide, by decide, by decide, by decide⟩

/-- C8 (amended): `dtype_specific_binary` dispatches by the groups the
pandas predicates actually induce, in source order — numeric-kind (numeric
*or bool* dtypes) to `numerics`, datetime-or-duration to `datetimes`,
string-kind (string/object *or categorical* dtypes) to `strings`, interval
to `intervals`, the `bools` and `categoricals` arguments being shadowed
for plain bool/categorical dtypes — whatever the `errors` argument; when
the groups differ, or a side belongs to no group, the default handling
emits a non-fatal diagnostic and returns NaNs on `right`'s row labels,
and `errors='raise'` fails with `ValueError`. -/
theorem C8_dtype_dispatch_groups {α β : Type} (left right : Series α)
    (numerics datetimes bools strings categoricals intervals :
      Series α → Series α → Series (Option β)) :
    ((dispatchGroup left.dtype ≠ dispatchGroup right.dtype ∨
        dispatchGroup left.dtype = none) →
      dtype_specific_binary left right numerics datetimes bools strings
          categoricals intervals "ignore" = .ok (true, nanSeries right.index) ∧
      dtype_specific_binary left right numerics datetimes bools strings
          categoricals intervals "raise" =
        .error (.valueError
          "left and right do not have matching supported dtypes")) ∧
    (∀ errors, dispatchGroup left.dtype = some .numericG →
      dispatchGroup right.dtype = some .numericG →
      dtype_specific_binary left right numerics datetimes bools strings
        categoricals intervals errors = .ok (false, numerics left right)) ∧
    (∀ errors, dispatchGroup left.dtype = some .datetimeG →
      dispatchGroup right.dtype = some .datetimeG →
      dtype_specific_binary left right numerics datetimes bools strings
        categoricals intervals errors = .ok (false, datetimes left right)) ∧
    (∀ errors, dispatchGroup left.dtype = some .stringG →
      dispatchGroup right.dtype = some .stringG →
      dtype_specific_binary left right numerics datetimes bools strings
        categoricals intervals errors = .ok (false, strings left right)) ∧
    (∀ errors, dispatchGroup left.dtype = some .intervalG →
      dispatchGroup right.dtype = some .intervalG →
      dtype_specific_binary left right numerics datetimes bools strings
        categoricals intervals errors = .ok (false, intervals left right)) := by
  have hignore : (("ignore" : String) == "raise") = false := by decide
  have hraise : (("raise" : String) == "raise") = true := by decide
  refine ⟨?_, ?_, ?_, ?_, ?_⟩
  · intro h
    cases hl : left.dtype <;> cases hr : right.dtype <;>
      simp_all [dtype_specific_binary, dispatchGroup, is_numeric_dtype,
        is_datetime64_any_dtype, is_timedelta64_dtype, is_timedelta64_ns_dtype,
        is_bool_dtype, is_string_dtype, is_categorical_dtype, is_interval_dtype]
  all_goals
    intro errors hl hr
    cases hld : left.dtype <;> cases hrd : right.dtype <;>
      simp_all [dtype_specific_binary, dispatchGroup, is_numeric_dtype,
        is_datetime64_any_dtype, is_timedelta64_dtype, is_timedelta64_ns_dtype,
        is_bool_dtype, is_string_dtype, is_categorical_dtype, is_interval_dtype]

/-- Witness for the amended C8: a bool/bool pair lands in the numeric-kind
group and is dispatched to `numerics`; a numeric column against a
string column is a group mismatch — NaNs on `serStr`'s labels under the
default handling, `ValueError` under strict handling. -/
theorem C8_dtype_dispatch_groups_witness :
    dispatchGroup serBool.dtype = some DispatchGroup.numericG ∧
    dispatchGroup serBool2.dtype = some DispatchGroup.numericG ∧
    dtype_specific_binary serBool serBool2 (tagFn "numerics") (tagFn "datetimes")
        (tagFn "bools") (tagFn "strings") (tagFn "categoricals")
        (tagFn "intervals") "ignore" =
      .ok (false, tagFn "numerics" serBool serBool2) ∧
    (dispatchGroup serNum.dtype ≠ dispatchGroup serStr.dtype ∨
      dispatchGroup serNum.dtype = none) ∧
    dtype_specific_binary serNum serStr nanFn nanFn nanFn nanFn nanFn nanFn
        "ignore" = .ok (true, nanSeries ["s1", "s2"]) ∧
    dtype_specific_binary serNum serStr nanFn nanFn nanFn nanFn nanFn nanFn
        "raise" =
      .error (.valueError
        "left and right do not have matching supported dtypes") := by
  have h1 := (C8_dtype_dispatch_groups serBool serBool2 (tagFn "numerics")
    (tagFn "datetimes") (tagFn "bools") (tagFn "strings")
    (tagFn "categoricals") (tagFn "intervals")).2.1 "ignore" (by decide)
    (by decide)
  have h2 := (C8_dtype_dispatch_groups serNum serStr nanFn nanFn nanFn nanFn
    nanFn nanFn).1 (by decide)
  exact ⟨by decide, by decide, h1, by decide, h2.1, h2.2⟩
